import Mathlib

/-!
Verification development for the task-manager web application.

The program is a CRUD REST API over a single `tasks` table
(`src/backend/routes/tasks.js`), a thin HTTP client
(`src/unnamed/part_000`, the `taskService`), and a client-side state
controller (`src/frontend/src/app/page.tsx`, the `Home` component).

The storage accessor (`../config/database`, the relational engine and the
`tasks` schema) is not part of the provided sources; its behaviour is
modelled from the specification: an opaque `execute(query, params) → rows`
capability, with `created_at` assigned at insertion and strictly
increasing, ids auto-assigned and never reused, and request fields that
are absent written as NULL (the spec's full-replace characterisation of
the parameterised UPDATE statement).

JavaScript `undefined`/`null` string fields are modelled as `Option String`
with `none` for absent; timestamps are a logical `Nat` clock.
-/

/-- A persisted row of the `tasks` table (spec section 3: the Task entity).
`title`, `description` and `status` are nullable columns, modelled from the
spec's full-replace characterisation of the UPDATE statement. -/
structure Row where
  id : Nat
  title : Option String
  description : Option String
  status : Option String
  created_at : Nat
  updated_at : Nat
deriving Repr, DecidableEq

/-- Modelled from the spec: the state of the storage accessor
(`../config/database`, not in the provided sources). `rows` is kept in
insertion order, `nextId` is the auto-increment counter (ids are never
reused), `clock` is the logical timestamp source: each insert stamps
`created_at` with the current clock and advances it, so `created_at` is
strictly increasing along `rows`. -/
structure DB where
  rows : List Row
  nextId : Nat
  clock : Nat
deriving Repr, DecidableEq

/-- The empty database: no rows, first auto-increment id is 1. -/
def dbInit : DB := { rows := [], nextId := 1, clock := 0 }

/-- Modelled from the spec: `SELECT * FROM tasks ORDER BY created_at DESC`.
Rows are stored in insertion order with strictly increasing `created_at`,
so descending `created_at` order is the reverse of `rows`. -/
def dbSelectAllDesc (db : DB) : List Row := db.rows.reverse

/-- Modelled from the spec: `SELECT * FROM tasks WHERE id = ?`. -/
def dbSelectById (db : DB) (i : Nat) : List Row :=
  db.rows.filter (fun r => r.id == i)

/-- Modelled from the spec:
`INSERT INTO tasks (title, description, status) VALUES (?, ?, ?)`.
Returns `insertId` and the new state: the row is appended with the next
auto-increment id, `created_at` and `updated_at` stamped with the clock. -/
def dbInsert (db : DB) (title description status : Option String) :
    Nat × DB :=
  (db.nextId,
   { rows := db.rows ++
       [{ id := db.nextId, title := title, description := description,
          status := status, created_at := db.clock, updated_at := db.clock }],
     nextId := db.nextId + 1,
     clock := db.clock + 1 })

/-- Modelled from the spec:
`UPDATE tasks SET title = ?, description = ?, status = ? WHERE id = ?`.
Returns `affectedRows` (the number of matched rows) and the new state.
All three columns are written verbatim from the parameters: a parameter
that was absent in the request arrives as `none` and is written as NULL
(the spec's full-replace semantics). `updated_at` is refreshed by the
storage layer on every matched row. -/
def dbUpdate (db : DB) (i : Nat) (title description status : Option String) :
    Nat × DB :=
  ((db.rows.filter (fun r => r.id == i)).length,
   { db with
     rows := db.rows.map (fun r =>
       if r.id == i then
         { r with title := title, description := description,
                  status := status, updated_at := db.clock }
       else r),
     clock := db.clock + 1 })

/-- Modelled from the spec: `DELETE FROM tasks WHERE id = ?` (hard delete).
Returns `affectedRows` and the new state. -/
def dbDelete (db : DB) (i : Nat) : Nat × DB :=
  ((db.rows.filter (fun r => r.id == i)).length,
   { db with rows := db.rows.filter (fun r => !(r.id == i)) })

/-- A JSON request body for create/update: any subset of
title/description/status; `none` is an absent field. -/
structure ReqBody where
  title : Option String := none
  description : Option String := none
  status : Option String := none
deriving Repr, DecidableEq

/-- The JSON body of an HTTP response from the task routes. `empty` is the
body `res.json(undefined)` would send; the handlers never actually reach
that case (see `routerPut_code200_task` below). -/
inductive Body where
  | tasks (ts : List Row)
  | task (t : Row)
  | msg (m : String)
  | err (m : String)
  | empty
deriving Repr, DecidableEq

/-- An HTTP response: status code plus JSON body. -/
structure Resp where
  code : Nat
  body : Body
deriving Repr, DecidableEq

/-- `router.get('/')` in `src/backend/routes/tasks.js` (lines 52-59):
list all tasks ordered by `created_at` descending. -/
def routerGetAll (db : DB) : Resp :=
  { code := 200, body := Body.tasks (dbSelectAllDesc db) }

/-- `router.get('/:id')` in `src/backend/routes/tasks.js` (lines 85-95):
404 when no row matches, otherwise the first matching row. -/
def routerGetById (db : DB) (i : Nat) : Resp :=
  match dbSelectById db i with
  | [] => { code := 404, body := Body.err "Task not found" }
  | r :: _ => { code := 200, body := Body.task r }

/-- `router.post('/')` in `src/backend/routes/tasks.js` (lines 126-144):
`status` defaults to "pending" when absent (the JS destructuring default),
`!title` rejects an absent or empty title with 400 before any insert;
otherwise insert, then re-read the row by `insertId` and answer 201. -/
def routerPost (db : DB) (b : ReqBody) : Resp × DB :=
  let status := b.status.getD "pending"
  if b.title = none ∨ b.title = some "" then
    ({ code := 400, body := Body.err "Title is required" }, db)
  else
    let ins := dbInsert db b.title b.description (some status)
    match dbSelectById ins.2 ins.1 with
    | [] => ({ code := 201, body := Body.empty }, ins.2)
    | r :: _ => ({ code := 201, body := Body.task r }, ins.2)

/-- `router.put('/:id')` in `src/backend/routes/tasks.js` (lines 178-197):
destructure title/description/status from the body (no defaults), run the
UPDATE with all three, 404 when no row was affected, otherwise re-read the
row and answer 200. -/
def routerPut (db : DB) (i : Nat) (b : ReqBody) : Resp × DB :=
  let upd := dbUpdate db i b.title b.description b.status
  if upd.1 = 0 then
    ({ code := 404, body := Body.err "Task not found" }, upd.2)
  else
    match dbSelectById upd.2 i with
    | [] => ({ code := 200, body := Body.empty }, upd.2)
    | r :: _ => ({ code := 200, body := Body.task r }, upd.2)

/-- `router.delete('/:id')` in `src/backend/routes/tasks.js`
(lines 217-229): run the DELETE, 404 when no row was affected, otherwise a
confirmation message. -/
def routerDelete (db : DB) (i : Nat) : Resp × DB :=
  let del := dbDelete db i
  if del.1 = 0 then
    ({ code := 404, body := Body.err "Task not found" }, del.2)
  else
    ({ code := 200, body := Body.msg "Task deleted successfully" }, del.2)

/-- `taskService.getTasks` from `src/unnamed/part_000`: GET /tasks; axios
resolves with the parsed body on a 2xx status and rejects otherwise. -/
def taskService.getTasks (db : DB) : Except Unit (List Row) :=
  match (routerGetAll db).body with
  | Body.tasks ts => Except.ok ts
  | _ => Except.error ()

/-- `taskService.getTask` from `src/unnamed/part_000`: GET /tasks/id. -/
def taskService.getTask (db : DB) (i : Nat) : Except Unit Row :=
  match (routerGetById db i).code, (routerGetById db i).body with
  | 200, Body.task t => Except.ok t
  | _, _ => Except.error ()

/-- `taskService.createTask` from `src/unnamed/part_000`: POST /tasks. -/
def taskService.createTask (db : DB) (b : ReqBody) : Except Unit Row × DB :=
  let res := routerPost db b
  match res.1.code, res.1.body with
  | 201, Body.task t => (Except.ok t, res.2)
  | _, _ => (Except.error (), res.2)

/-- `taskService.updateTask` from `src/unnamed/part_000` (lines 30-33):
PUT /tasks/id with a partial body; resolves with the parsed Task on a 2xx
status, rejects otherwise.  (A 200 response always carries a task body,
see `routerPut_code200_task`, so the catch-all only ever sees failures.) -/
def taskService.updateTask (db : DB) (i : Nat) (b : ReqBody) :
    Except Unit Row × DB :=
  let res := routerPut db i b
  match res.1.code, res.1.body with
  | 200, Body.task t => (Except.ok t, res.2)
  | _, _ => (Except.error (), res.2)

/-- `taskService.deleteTask` from `src/unnamed/part_000`: DELETE /tasks/id;
resolves with no payload on success. -/
def taskService.deleteTask (db : DB) (i : Nat) : Except Unit Unit × DB :=
  let res := routerDelete db i
  if res.1.code = 200 then (Except.ok (), res.2) else (Except.error (), res.2)

/-- The state held by the `Home` component in
`src/frontend/src/app/page.tsx` (the Application State Controller):
`tasks`, `loading`, `error`, `showForm`, `editingTask`. -/
structure AppState where
  tasks : List Row
  loading : Bool
  error : Option String
  showForm : Bool
  editingTask : Option Row
deriving Repr, DecidableEq

/-- `handleStatusChange` from `src/frontend/src/app/page.tsx`
(lines 71-79), composed with the API client and the backend: it calls
`taskService.updateTask(id, { status })` — a body carrying only the status
field — and on success maps the returned task over `tasks`, replacing the
entries whose id matches; on failure it sets the error banner. -/
def handleStatusChange (app : AppState) (db : DB) (i : Nat) (st : String) :
    AppState × DB :=
  match taskService.updateTask db i
      { title := none, description := none, status := some st } with
  | (Except.ok t, db1) =>
      ({ app with tasks := app.tasks.map (fun x => if x.id == i then t else x) },
       db1)
  | (Except.error _, db1) =>
      ({ app with error := some "Failed to update task status" }, db1)

/-- `handleDeleteTask` from `src/frontend/src/app/page.tsx` (lines 59-69):
the blocking `confirm(...)` prompt result is the `confirmed` argument; when
declined the handler returns at once, otherwise it calls
`taskService.deleteTask` and on success filters the task out of `tasks`;
on failure it sets the error banner. -/
def handleDeleteTask (app : AppState) (db : DB) (i : Nat) (confirmed : Bool) :
    AppState × DB :=
  if !confirmed then (app, db)
  else
    match taskService.deleteTask db i with
    | (Except.ok _, db1) =>
        ({ app with tasks := app.tasks.filter (fun x => !(x.id == i)) }, db1)
    | (Except.error _, db1) =>
        ({ app with error := some "Failed to delete task" }, db1)

/-- `handleEditTask` from `src/frontend/src/app/page.tsx` (lines 45-57):
returns at once when no editing target is set; otherwise calls
`taskService.updateTask(editingTask.id, taskData)`, and on success maps the
returned task over `tasks`, clears the editing target and closes the form;
on failure it sets the error banner. -/
def handleEditTask (app : AppState) (db : DB) (b : ReqBody) :
    AppState × DB :=
  match app.editingTask with
  | none => (app, db)
  | some et =>
    match taskService.updateTask db et.id b with
    | (Except.ok t, db1) =>
        ({ app with
           tasks := app.tasks.map (fun x => if x.id == et.id then t else x),
           editingTask := none, showForm := false }, db1)
    | (Except.error _, db1) =>
        ({ app with error := some "Failed to update task" }, db1)

/-- Well-formedness of the storage state, maintained by the modelled
engine: the auto-increment counter is positive and strictly above every
stored id, and `created_at` is strictly increasing along `rows` and below
the clock. -/
def DB.WF (db : DB) : Prop :=
  0 < db.nextId ∧ (∀ r ∈ db.rows, r.id < db.nextId) ∧
  db.rows.Pairwise (fun a b => a.created_at < b.created_at) ∧
  (∀ r ∈ db.rows, r.created_at < db.clock)

/-- The status enumeration of spec section 3. -/
def ValidStatus (s : String) : Prop :=
  s = "pending" ∨ s = "in-progress" ∨ s = "completed"

/-- The data-model invariant of spec section 3 for one persisted task:
non-null positive id, non-empty title, enumerated status. -/
def TaskInv (r : Row) : Prop :=
  0 < r.id ∧ (∃ t, r.title = some t ∧ t ≠ "") ∧
  (∃ s, r.status = some s ∧ ValidStatus s)

/-- The row the create route inserts for a request body `b`: next
auto-increment id, title/description verbatim, status after the
destructuring default, both timestamps at the current clock. -/
def newRowOf (db : DB) (b : ReqBody) : Row :=
  { id := db.nextId, title := b.title, description := b.description,
    status := some (b.status.getD "pending"),
    created_at := db.clock, updated_at := db.clock }

/-- A sample persisted task used to instantiate theorems. -/
def rowA : Row :=
  { id := 1, title := some "A", description := none,
    status := some "pending", created_at := 0, updated_at := 0 }

/-- A sample one-task database state. -/
def dbA : DB := { rows := [rowA], nextId := 2, clock := 1 }

/-- A sample controller state holding the one task of `dbA`. -/
def appA : AppState :=
  { tasks := [rowA], loading := false, error := none,
    showForm := false, editingTask := none }

/-- The row of `dbA` after a status-only update to "completed": title and
description have been overwritten with NULL. -/
def rowA1 : Row :=
  { id := 1, title := none, description := none,
    status := some "completed", created_at := 0, updated_at := 1 }

/-- The database after `routerPut dbA 1 {status := "completed"}`. -/
def dbA1 : DB := { rows := [rowA1], nextId := 2, clock := 2 }

/-- The row created by `routerPost dbInit {title := "Buy milk"}`. -/
def rowBM : Row :=
  { id := 1, title := some "Buy milk", description := none,
    status := some "pending", created_at := 0, updated_at := 0 }

/-- The database after creating "Buy milk" in the empty database. -/
def dbBM : DB := { rows := [rowBM], nextId := 2, clock := 1 }

/-- A filter on id equality drops every row when no stored row has the
requested id. -/
lemma filter_id_nil (rows : List Row) (i : Nat)
    (h : ∀ r ∈ rows, r.id ≠ i) :
    rows.filter (fun r => r.id == i) = [] := by
  rw [List.filter_eq_nil_iff]
  intro r hr
  simpa using h r hr

/-- A filter on id inequality keeps every row when no stored row has the
requested id. -/
lemma filter_ne_id_self (rows : List Row) (i : Nat)
    (h : ∀ r ∈ rows, r.id ≠ i) :
    rows.filter (fun r => !(r.id == i)) = rows := by
  rw [List.filter_eq_self]
  intro r hr
  simpa using h r hr

/-- Every survivor of the DELETE filter has an id different from the
deleted one. -/
lemma mem_filter_ne_id (rows : List Row) (i : Nat) (r : Row)
    (hr : r ∈ rows.filter (fun x => !(x.id == i))) : r.id ≠ i := by
  have h := (List.mem_filter.mp hr).2
  simpa using h

/-- Filtering the id-selection out of an UPDATE-mapped row list is the
same as mapping the update over the original selection, because the
update leaves ids unchanged. -/
lemma filter_id_map_update (rows : List Row) (i : Nat) (g : Row → Row)
    (hg : ∀ r, (g r).id = r.id) :
    (rows.map (fun r => if r.id == i then g r else r)).filter (fun r => r.id == i)
      = (rows.filter (fun r => r.id == i)).map g := by
  rw [List.filter_map]
  have hp : ((fun r : Row => r.id == i) ∘ (fun r : Row => if r.id == i then g r else r))
      = (fun r : Row => r.id == i) := by
    funext r
    by_cases h : r.id = i <;> simp [Function.comp, h, hg]
  rw [hp]
  apply List.map_congr_left
  intro r hr
  have h := (List.mem_filter.mp hr).2
  rw [if_pos h]

/-- The PUT handler always leaves the row list in the mapped full-replace
form, whichever branch it takes. -/
lemma routerPut_rows (db : DB) (i : Nat) (b : ReqBody) :
    ((routerPut db i b).2).rows =
      db.rows.map (fun r =>
        if r.id == i then
          { r with title := b.title, description := b.description,
                   status := b.status, updated_at := db.clock }
        else r) := by
  unfold routerPut dbUpdate
  dsimp only
  split
  · rfl
  · split <;> rfl

/-- A PUT on an id with no matching row answers 404; the UPDATE statement
has still been executed (it matched nothing). -/
lemma routerPut_absent (db : DB) (i : Nat) (b : ReqBody)
    (h : ∀ r ∈ db.rows, r.id ≠ i) :
    routerPut db i b
      = ({ code := 404, body := Body.err "Task not found" },
         { db with
           rows := db.rows.map (fun r =>
             if r.id == i then
               { r with title := b.title, description := b.description,
                        status := b.status, updated_at := db.clock }
             else r),
           clock := db.clock + 1 }) := by
  have hnil : db.rows.filter (fun r => r.id == i) = [] := filter_id_nil db.rows i h
  unfold routerPut dbUpdate
  dsimp only
  rw [hnil]
  rfl

/-- A PUT on an id with a matching row answers 200 with the re-read row,
whose mutable fields are exactly those of the request body. -/
lemma routerPut_found (db : DB) (i : Nat) (b : ReqBody) (r0 : Row)
    (hr : r0 ∈ db.rows) (hid : r0.id = i) :
    ∃ t : Row,
      (routerPut db i b).1 = { code := 200, body := Body.task t } ∧
      t ∈ ((routerPut db i b).2).rows ∧
      t.id = i ∧ t.title = b.title ∧ t.description = b.description ∧
      t.status = b.status := by
  have hmem : r0 ∈ db.rows.filter (fun r => r.id == i) := by
    rw [List.mem_filter]
    exact ⟨hr, by simpa using hid⟩
  have hlen : ¬(db.rows.filter (fun r => r.id == i)).length = 0 := by
    intro h0
    rw [List.length_eq_zero] at h0
    rw [h0] at hmem
    exact List.not_mem_nil r0 hmem
  have hsel : (db.rows.map (fun r =>
        if r.id == i then
          { r with title := b.title, description := b.description,
                   status := b.status, updated_at := db.clock }
        else r)).filter (fun r => r.id == i)
      = (db.rows.filter (fun r => r.id == i)).map (fun r =>
          { r with title := b.title, description := b.description,
                   status := b.status, updated_at := db.clock }) :=
    filter_id_map_update db.rows i _ (fun r => rfl)
  unfold routerPut dbUpdate dbSelectById
  dsimp only
  rw [if_neg hlen, hsel]
  cases hfil : db.rows.filter (fun r => r.id == i) with
  | nil => exact absurd hfil (by intro h0; rw [h0] at hmem; exact List.not_mem_nil r0 hmem)
  | cons r1 rest =>
    rw [List.map_cons]
    have hr1 : r1 ∈ db.rows ∧ (r1.id == i) = true :=
      List.mem_filter.mp (by rw [hfil]; exact List.mem_cons_self r1 rest)
    refine ⟨{ r1 with title := b.title, description := b.description,
                      status := b.status, updated_at := db.clock },
            rfl, ?_, ?_, rfl, rfl, rfl⟩
    · dsimp only
      rw [List.mem_map]
      exact ⟨r1, hr1.1, by rw [if_pos hr1.2]⟩
    · simpa using hr1.2

/-- A 200 response of the PUT handler always carries a task body: the
`res.json(undefined)` case is unreachable. -/
lemma routerPut_code200_task (db : DB) (i : Nat) (b : ReqBody)
    (h : (routerPut db i b).1.code = 200) :
    ∃ t, (routerPut db i b).1.body = Body.task t := by
  by_cases hex : ∃ r ∈ db.rows, r.id = i
  · obtain ⟨r0, hr, hid⟩ := hex
    obtain ⟨t, h1, -⟩ := routerPut_found db i b r0 hr hid
    exact ⟨t, by rw [h1]⟩
  · have habs : ∀ r ∈ db.rows, r.id ≠ i := by
      intro r hr hcontra
      exact hex ⟨r, hr, hcontra⟩
    rw [routerPut_absent db i b habs] at h
    simp at h

/-- A POST whose title is absent or empty answers 400 and leaves the
database untouched: the insert is never executed. -/
lemma routerPost_invalid (db : DB) (b : ReqBody)
    (h : b.title = none ∨ b.title = some "") :
    routerPost db b = ({ code := 400, body := Body.err "Title is required" }, db) := by
  unfold routerPost
  dsimp only
  rw [if_pos h]

/-- A POST with a non-empty title inserts `newRowOf db b`, re-reads it by
its fresh id (fresh because every stored id is below `nextId`), and
answers 201 with it. -/
lemma routerPost_success (db : DB) (b : ReqBody) (t : String)
    (hid : ∀ r ∈ db.rows, r.id < db.nextId)
    (ht : b.title = some t) (hne : t ≠ "") :
    routerPost db b =
      ({ code := 201, body := Body.task (newRowOf db b) },
       { rows := db.rows ++ [newRowOf db b],
         nextId := db.nextId + 1, clock := db.clock + 1 }) := by
  have hcond : ¬(b.title = none ∨ b.title = some "") := by
    rintro (h | h) <;> rw [ht] at h
    · exact Option.noConfusion h
    · exact hne (Option.some.inj h)
  have hold : db.rows.filter (fun r => r.id == db.nextId) = [] :=
    filter_id_nil db.rows db.nextId (fun r hr => Nat.ne_of_lt (hid r hr))
  unfold routerPost
  dsimp only
  rw [if_neg hcond]
  unfold dbInsert dbSelectById
  dsimp only
  rw [List.filter_append, hold]
  simp [newRowOf]

/-- Whatever re-read branch the POST handler takes on a valid title, the
stored rows are the old ones with the new row appended. -/
lemma routerPost_rows_valid (db : DB) (b : ReqBody)
    (hc : ¬(b.title = none ∨ b.title = some "")) :
    ((routerPost db b).2).rows = db.rows ++ [newRowOf db b] := by
  unfold routerPost dbInsert dbSelectById
  dsimp only
  rw [if_neg hc]
  split <;> rfl

/-- The DELETE handler always leaves exactly the rows whose id differs
from the requested one. -/
lemma routerDelete_rows (db : DB) (i : Nat) :
    ((routerDelete db i).2).rows = db.rows.filter (fun r => !(r.id == i)) := by
  unfold routerDelete dbDelete
  dsimp only
  split <;> rfl

/-- A DELETE on an id with no matching row answers 404 and leaves the
database in its exact previous state. -/
lemma routerDelete_absent (db : DB) (i : Nat)
    (h : ∀ r ∈ db.rows, r.id ≠ i) :
    routerDelete db i = ({ code := 404, body := Body.err "Task not found" }, db) := by
  have hnil := filter_id_nil db.rows i h
  have hself := filter_ne_id_self db.rows i h
  unfold routerDelete dbDelete
  dsimp only
  rw [hnil, hself]
  rfl

/-- A DELETE on an id with a matching row answers 200 and removes exactly
the rows carrying that id. -/
lemma routerDelete_present (db : DB) (i : Nat) (r0 : Row)
    (hr : r0 ∈ db.rows) (hid : r0.id = i) :
    routerDelete db i
      = ({ code := 200, body := Body.msg "Task deleted successfully" },
         { db with rows := db.rows.filter (fun r => !(r.id == i)) }) := by
  have hmem : r0 ∈ db.rows.filter (fun r => r.id == i) := by
    rw [List.mem_filter]
    exact ⟨hr, by simpa using hid⟩
  have hlen : ¬(db.rows.filter (fun r => r.id == i)).length = 0 := by
    intro h0
    rw [List.length_eq_zero] at h0
    rw [h0] at hmem
    exact List.not_mem_nil r0 hmem
  unfold routerDelete dbDelete
  dsimp only
  rw [if_neg hlen]

/-- A GET-by-id on an id with no matching row answers 404. -/
lemma routerGetById_absent (db : DB) (i : Nat)
    (h : ∀ r ∈ db.rows, r.id ≠ i) :
    routerGetById db i = { code := 404, body := Body.err "Task not found" } := by
  unfold routerGetById dbSelectById
  rw [filter_id_nil db.rows i h]

/-- A GET-by-id whose selection is a single row answers 200 with it. -/
lemma routerGetById_unique (db : DB) (i : Nat) (r : Row)
    (hsel : db.rows.filter (fun x => x.id == i) = [r]) :
    routerGetById db i = { code := 200, body := Body.task r } := by
  unfold routerGetById dbSelectById
  rw [hsel]

/-- The empty database is well formed. -/
lemma dbInit_WF : dbInit.WF := by
  refine ⟨Nat.one_pos, ?_, ?_, ?_⟩ <;> simp [dbInit]

/-- The create route preserves well-formedness of the storage state. -/
lemma WF_routerPost (db : DB) (b : ReqBody) (hwf : db.WF) :
    ((routerPost db b).2).WF := by
  obtain ⟨hpos, hid, hpw, hclk⟩ := hwf
  by_cases hc : b.title = none ∨ b.title = some ""
  · rw [routerPost_invalid db b hc]
    exact ⟨hpos, hid, hpw, hclk⟩
  · push_neg at hc
    obtain ⟨hc1, hc2⟩ := hc
    obtain ⟨t, ht⟩ := Option.ne_none_iff_exists'.mp hc1
    have hne : t ≠ "" := by
      intro h0
      rw [h0] at ht
      exact hc2 ht
    rw [routerPost_success db b t hid ht hne]
    refine ⟨Nat.lt_of_lt_of_le hpos (Nat.le_succ _), ?_, ?_, ?_⟩
    · intro r hr
      rcases List.mem_append.mp hr with h | h
      · exact Nat.lt_succ_of_lt (hid r h)
      · rw [List.mem_singleton.mp h]
        exact Nat.lt_succ_self _
    · rw [List.pairwise_append]
      refine ⟨hpw, by simp, ?_⟩
      intro a ha b2 hb2
      rw [List.mem_singleton.mp hb2]
      exact hclk a ha
    · intro r hr
      rcases List.mem_append.mp hr with h | h
      · exact Nat.lt_succ_of_lt (hclk r h)
      · rw [List.mem_singleton.mp h]
        exact Nat.lt_succ_self _

/-- The API client threads the PUT response state through unchanged. -/
lemma taskService_updateTask_snd (db : DB) (i : Nat) (b : ReqBody) :
    (taskService.updateTask db i b).2 = (routerPut db i b).2 := by
  unfold taskService.updateTask
  dsimp only
  split <;> rfl

/-- The status-change handler threads the service state through
unchanged. -/
lemma handleStatusChange_snd (app : AppState) (db : DB) (i : Nat) (st : String) :
    (handleStatusChange app db i st).2
      = (taskService.updateTask db i
          { title := none, description := none, status := some st }).2 := by
  unfold handleStatusChange
  split <;> rename_i heq <;> rw [heq]

/-- C1: the update route uses full-replace semantics: for every update
request, all three mutable columns (title, description, status) are
written verbatim from the request body into every row matching the id,
so a field not supplied (arriving as `none`) is written as NULL rather
than preserved; and in particular an update on an existing task id that
supplies only `status` answers 200 with a task whose title and
description are NULL. -/
theorem routerPut_full_replace (db : DB) (i : Nat) (b : ReqBody) (s : String) :
    ((routerPut db i b).2).rows
      = db.rows.map (fun r =>
          if r.id == i then
            { r with title := b.title, description := b.description,
                     status := b.status, updated_at := db.clock }
          else r) ∧
    (∀ r0 ∈ db.rows, r0.id = i →
      ∃ t : Row,
        (routerPut db i { title := none, description := none, status := some s }).1
          = { code := 200, body := Body.task t } ∧
        t.id = i ∧ t.title = none ∧ t.description = none ∧ t.status = some s) := by
  refine ⟨routerPut_rows db i b, ?_⟩
  intro r0 hr hid
  obtain ⟨t, h1, -, h3, h4, h5, h6⟩ :=
    routerPut_found db i { title := none, description := none, status := some s } r0 hr hid
  exact ⟨t, h1, h3, h4, h5, h6⟩

/-- Witness for C1: updating task 1 of the sample database with only a
status yields 200 and a task whose title and description are NULL. -/
theorem routerPut_full_replace_witness :
    ∃ t : Row,
      (routerPut dbA 1 { title := none, description := none, status := some "completed" }).1
        = { code := 200, body := Body.task t } ∧
      t.id = 1 ∧ t.title = none ∧ t.description = none ∧ t.status = some "completed" :=
  (routerPut_full_replace dbA 1 { title := none } "completed").2 rowA (by decide) rfl

/-- C2: a create request whose title is absent or empty answers 400 with
a validation error and returns the storage state it was given: no insert
is executed and the set of stored tasks is unchanged. -/
theorem routerPost_rejects_empty_title (db : DB) (b : ReqBody)
    (h : b.title = none ∨ b.title = some "") :
    routerPost db b = ({ code := 400, body := Body.err "Title is required" }, db) :=
  routerPost_invalid db b h

/-- Witness for C2: creating with an absent title in the empty database
answers 400 and leaves the database untouched. -/
theorem routerPost_rejects_empty_title_witness :
    routerPost dbInit { title := none }
      = ({ code := 400, body := Body.err "Title is required" }, dbInit) :=
  routerPost_rejects_empty_title dbInit { title := none } (Or.inl rfl)

/-- C3: a create request with a non-empty title answers 201 with the
freshly read full record: it carries a newly assigned positive id (the
next auto-increment value), the request title preserved, the request
description, and a status defaulting to "pending" whenever the request
omitted it; the record is exactly the row appended to storage. -/
theorem routerPost_valid_create (db : DB) (b : ReqBody) (t : String)
    (hwf : db.WF) (ht : b.title = some t) (hne : t ≠ "") :
    ∃ r : Row,
      routerPost db b
        = ({ code := 201, body := Body.task r },
           { rows := db.rows ++ [r], nextId := db.nextId + 1, clock := db.clock + 1 }) ∧
      0 < r.id ∧ r.id = db.nextId ∧ r.title = some t ∧
      r.description = b.description ∧
      r.status = some (b.status.getD "pending") ∧
      (b.status = none → r.status = some "pending") := by
  refine ⟨newRowOf db b, routerPost_success db b t hwf.2.1 ht hne,
          hwf.1, rfl, ?_, rfl, rfl, ?_⟩
  · show b.title = some t
    exact ht
  · intro hs
    show some (b.status.getD "pending") = some "pending"
    rw [hs]
    rfl

/-- Witness for C3: creating "Buy milk" in the empty database. -/
theorem routerPost_valid_create_witness :
    ∃ r : Row,
      routerPost dbInit { title := some "Buy milk" }
        = ({ code := 201, body := Body.task r },
           { rows := dbInit.rows ++ [r], nextId := dbInit.nextId + 1,
             clock := dbInit.clock + 1 }) ∧
      0 < r.id ∧ r.id = dbInit.nextId ∧ r.title = some "Buy milk" ∧
      r.description = ({ title := some "Buy milk" } : ReqBody).description ∧
      r.status = some (({ title := some "Buy milk" } : ReqBody).status.getD "pending") ∧
      (({ title := some "Buy milk" } : ReqBody).status = none →
        r.status = some "pending") :=
  routerPost_valid_create dbInit { title := some "Buy milk" } "Buy milk"
    dbInit_WF rfl (by decide)

/-- C4: the list route takes no input and returns all stored tasks
ordered by `created_at` descending (newest first): the response is the
stored rows reversed, a permutation of the stored rows that is pairwise
descending in `created_at`; and after creating tasks T1 then T2 then T3,
listing yields T3, T2, T1 in front of the earlier tasks. -/
theorem routerGetAll_desc_order (db : DB) (b1 b2 b3 : ReqBody) (t1 t2 t3 : String)
    (hwf : db.WF)
    (h1 : b1.title = some t1) (hn1 : t1 ≠ "")
    (h2 : b2.title = some t2) (hn2 : t2 ≠ "")
    (h3 : b3.title = some t3) (hn3 : t3 ≠ "") :
    routerGetAll db = { code := 200, body := Body.tasks db.rows.reverse } ∧
    db.rows.reverse.Perm db.rows ∧
    List.Pairwise (fun x y => y.created_at ≤ x.created_at) db.rows.reverse ∧
    (∃ r1 r2 r3 : Row,
      r1.title = some t1 ∧ r2.title = some t2 ∧ r3.title = some t3 ∧
      routerGetAll (routerPost (routerPost (routerPost db b1).2 b2).2 b3).2
        = { code := 200, body := Body.tasks (r3 :: r2 :: r1 :: db.rows.reverse) }) := by
  refine ⟨rfl, List.reverse_perm db.rows, ?_, ?_⟩
  · rw [List.pairwise_reverse]
    exact List.Pairwise.imp (fun hab => le_of_lt hab) hwf.2.2.1
  · have hwf1 := WF_routerPost db b1 hwf
    have hwf2 := WF_routerPost ((routerPost db b1).2) b2 hwf1
    have e1 := routerPost_success db b1 t1 hwf.2.1 h1 hn1
    have e2 := routerPost_success ((routerPost db b1).2) b2 t2 hwf1.2.1 h2 hn2
    have e3 := routerPost_success ((routerPost (routerPost db b1).2 b2).2) b3 t3
      hwf2.2.1 h3 hn3
    refine ⟨newRowOf db b1, newRowOf ((routerPost db b1).2) b2,
            newRowOf ((routerPost (routerPost db b1).2 b2).2) b3,
            ?_, ?_, ?_, ?_⟩
    · show b1.title = some t1
      exact h1
    · show b2.title = some t2
      exact h2
    · show b3.title = some t3
      exact h3
    · have hr1 : ((routerPost db b1).2).rows = db.rows ++ [newRowOf db b1] := by
        rw [e1]
      have hr2 : ((routerPost (routerPost db b1).2 b2).2).rows
          = ((routerPost db b1).2).rows ++ [newRowOf ((routerPost db b1).2) b2] := by
        rw [e2]
      have hr3 : ((routerPost (routerPost (routerPost db b1).2 b2).2 b3).2).rows
          = ((routerPost (routerPost db b1).2 b2).2).rows
            ++ [newRowOf ((routerPost (routerPost db b1).2 b2).2) b3] := by
        rw [e3]
      have hrev : (((routerPost (routerPost (routerPost db b1).2 b2).2 b3).2).rows).reverse
          = newRowOf ((routerPost (routerPost db b1).2 b2).2) b3
            :: newRowOf ((routerPost db b1).2) b2
            :: newRowOf db b1
            :: db.rows.reverse := by
        rw [hr3, hr2, hr1]
        simp [List.reverse_append]
      unfold routerGetAll dbSelectAllDesc
      rw [hrev]

/-- Witness for C4: creating T1, T2, T3 in the empty database and
listing. -/
theorem routerGetAll_desc_order_witness :
    routerGetAll dbInit = { code := 200, body := Body.tasks dbInit.rows.reverse } ∧
    dbInit.rows.reverse.Perm dbInit.rows ∧
    List.Pairwise (fun x y => y.created_at ≤ x.created_at) dbInit.rows.reverse ∧
    (∃ r1 r2 r3 : Row,
      r1.title = some "T1" ∧ r2.title = some "T2" ∧ r3.title = some "T3" ∧
      routerGetAll (routerPost (routerPost (routerPost dbInit
            { title := some "T1" }).2 { title := some "T2" }).2 { title := some "T3" }).2
        = { code := 200, body := Body.tasks (r3 :: r2 :: r1 :: dbInit.rows.reverse) }) :=
  routerGetAll_desc_order dbInit { title := some "T1" } { title := some "T2" }
    { title := some "T3" } "T1" "T2" "T3" dbInit_WF
    rfl (by decide) rfl (by decide) rfl (by decide)

/-- C5: for an id with no matching stored task, GET answers 404 and
DELETE answers 404 leaving the state untouched; and for an id with a
matching task, deleting it twice answers 200 then 404, and the state
after both deletes equals the state after the first: deletion is
idempotent in effect, not in status code. -/
theorem routerDelete_notFound_idempotent (db : DB) (i : Nat) :
    ((∀ r ∈ db.rows, r.id ≠ i) →
       routerGetById db i = { code := 404, body := Body.err "Task not found" } ∧
       routerDelete db i = ({ code := 404, body := Body.err "Task not found" }, db)) ∧
    ((∃ r ∈ db.rows, r.id = i) →
       (routerDelete db i).1
         = { code := 200, body := Body.msg "Task deleted successfully" } ∧
       routerDelete ((routerDelete db i).2) i
         = ({ code := 404, body := Body.err "Task not found" }, (routerDelete db i).2)) := by
  constructor
  · intro h
    exact ⟨routerGetById_absent db i h, routerDelete_absent db i h⟩
  · rintro ⟨r0, hr, hid⟩
    have hpres := routerDelete_present db i r0 hr hid
    have habs2 : ∀ r ∈ ((routerDelete db i).2).rows, r.id ≠ i := by
      intro r hmem
      rw [routerDelete_rows db i] at hmem
      exact mem_filter_ne_id db.rows i r hmem
    refine ⟨by rw [hpres], routerDelete_absent ((routerDelete db i).2) i habs2⟩

/-- Witness for C5: in the sample one-task database, id 2 is absent and
id 1 is present. -/
theorem routerDelete_notFound_idempotent_witness :
    (routerGetById dbA 2 = { code := 404, body := Body.err "Task not found" } ∧
     routerDelete dbA 2 = ({ code := 404, body := Body.err "Task not found" }, dbA)) ∧
    ((routerDelete dbA 1).1
       = { code := 200, body := Body.msg "Task deleted successfully" } ∧
     routerDelete ((routerDelete dbA 1).2) 1
       = ({ code := 404, body := Body.err "Task not found" }, (routerDelete dbA 1).2)) :=
  ⟨(routerDelete_notFound_idempotent dbA 2).1 (by decide),
   (routerDelete_notFound_idempotent dbA 1).2 ⟨rowA, by decide, rfl⟩⟩

/-- C6: round-trip: creating a task with a valid payload and then
immediately getting it by the id the create response reported returns
exactly the task of the create response. -/
theorem create_then_get_roundtrip (db : DB) (b : ReqBody) (t : String)
    (hwf : db.WF) (ht : b.title = some t) (hne : t ≠ "")
    (r : Row) (db1 : DB)
    (hpost : routerPost db b = ({ code := 201, body := Body.task r }, db1)) :
    routerGetById db1 r.id = { code := 200, body := Body.task r } := by
  have hs := routerPost_success db b t hwf.2.1 ht hne
  rw [hpost] at hs
  simp only [Prod.mk.injEq, Resp.mk.injEq, Body.task.injEq, true_and] at hs
  obtain ⟨hr, hdb⟩ := hs
  subst hr
  subst hdb
  apply routerGetById_unique
  show (db.rows ++ [newRowOf db b]).filter (fun x => x.id == (newRowOf db b).id) = _
  rw [List.filter_append,
    filter_id_nil db.rows (newRowOf db b).id
      (fun r2 hr2 => Nat.ne_of_lt (hwf.2.1 r2 hr2))]
  simp

/-- Witness for C6: creating "Buy milk" in the empty database and
reading it back by the reported id. -/
theorem create_then_get_roundtrip_witness :
    routerGetById dbBM rowBM.id = { code := 200, body := Body.task rowBM } :=
  create_then_get_roundtrip dbInit { title := some "Buy milk" } "Buy milk"
    dbInit_WF rfl (by decide) rowBM dbBM (by decide)

/-- Counterexample for C7: the update route does not preserve the
data-model invariant. Create "Buy milk" in the empty database, then
update task 1 supplying only a status: the persisted task now has a NULL
title, so not every persisted task has a non-empty title. -/
theorem taskInv_violated_by_status_only_update :
    ¬ (∀ r ∈ ((routerPut (routerPost dbInit { title := some "Buy milk" }).2 1
          { status := some "completed" }).2).rows, TaskInv r) := by
  intro h
  have hmem : ({ id := 1, title := none, description := none,
                 status := some "completed", created_at := 0, updated_at := 1 } : Row)
      ∈ ((routerPut (routerPost dbInit { title := some "Buy milk" }).2 1
          { status := some "completed" }).2).rows := by decide
  obtain ⟨-, ⟨t, ht, -⟩, -⟩ := h _ hmem
  exact Option.noConfusion ht

/-- C7 (amended): the id part of the invariant is unconditional, but the
title/status parts hold only for well-formed requests: starting from a
state whose tasks all satisfy the invariant, a create whose status is
absent or enumerated, an update supplying a non-empty title and an
enumerated status, and any delete, leave every persisted task with a
positive id, a non-empty title and an enumerated status.  (The
unrestricted claim fails: the routes validate neither status nor the
update title, and the full-replace update nulls unsupplied fields, see
the counterexample.) -/
theorem taskInv_preserved_valid_requests (db : DB) (b : ReqBody) (i : Nat)
    (hpos : 0 < db.nextId) (hinv : ∀ r ∈ db.rows, TaskInv r) :
    ((b.status = none ∨ ∃ s, b.status = some s ∧ ValidStatus s) →
       ∀ r ∈ ((routerPost db b).2).rows, TaskInv r) ∧
    ((∃ t, b.title = some t ∧ t ≠ "") →
     (∃ s, b.status = some s ∧ ValidStatus s) →
       ∀ r ∈ ((routerPut db i b).2).rows, TaskInv r) ∧
    (∀ r ∈ ((routerDelete db i).2).rows, TaskInv r) := by
  refine ⟨?_, ?_, ?_⟩
  · intro hstat r hr
    by_cases hc : b.title = none ∨ b.title = some ""
    · rw [routerPost_invalid db b hc] at hr
      exact hinv r hr
    · rw [routerPost_rows_valid db b hc] at hr
      rcases List.mem_append.mp hr with h | h
      · exact hinv r h
      · rw [List.mem_singleton.mp h]
        refine ⟨hpos, ?_, ?_⟩
        · push_neg at hc
          obtain ⟨hc1, hc2⟩ := hc
          obtain ⟨t, ht⟩ := Option.ne_none_iff_exists'.mp hc1
          refine ⟨t, ht, ?_⟩
          intro h0
          rw [h0] at ht
          exact hc2 ht
        · rcases hstat with hs | ⟨s, hs, hvs⟩
          · refine ⟨"pending", ?_, Or.inl rfl⟩
            show some (b.status.getD "pending") = some "pending"
            rw [hs]
            rfl
          · refine ⟨s, ?_, hvs⟩
            show some (b.status.getD "pending") = some s
            rw [hs]
            rfl
  · rintro ⟨t, ht, htne⟩ ⟨s, hs, hvs⟩ r hr
    rw [routerPut_rows db i b] at hr
    rcases List.mem_map.mp hr with ⟨r0, hr0, rfl⟩
    by_cases h0 : (r0.id == i) = true
    · rw [if_pos h0]
      obtain ⟨hid0, -, -⟩ := hinv r0 hr0
      exact ⟨hid0, ⟨t, ht, htne⟩, ⟨s, hs, hvs⟩⟩
    · rw [if_neg (by simpa using h0)]
      exact hinv r0 hr0
  · intro r hr
    rw [routerDelete_rows db i] at hr
    exact hinv r (List.mem_filter.mp hr).1

/-- Witness for C7 (amended): updating the sample task with a full valid
body leaves a task satisfying the invariant. -/
theorem taskInv_preserved_valid_requests_witness :
    TaskInv { id := 1, title := some "C", description := none,
              status := some "completed", created_at := 0, updated_at := 1 } :=
  (taskInv_preserved_valid_requests dbA
      { title := some "C", description := none, status := some "completed" } 1
      (by decide)
      (by intro r hr
          have hra : r = rowA := by simpa [dbA] using hr
          rw [hra]
          exact ⟨Nat.one_pos, ⟨"A", rfl, by decide⟩, ⟨"pending", rfl, Or.inl rfl⟩⟩)).2.1
    ⟨"C", rfl, by decide⟩ ⟨"completed", rfl, Or.inr (Or.inr rfl)⟩
    _ (by decide)

/-- C8: the status-change shortcut issues an update carrying only the
status field (the storage transition is exactly that of a status-only
PUT); on success the returned task replaces the elements of `tasks`
whose id matches, position by position, every other element and the
order unchanged; on failure only the error banner is set. -/
theorem handleStatusChange_spec (app : AppState) (db : DB) (i : Nat) (st : String) :
    (handleStatusChange app db i st).2
      = (routerPut db i { title := none, description := none, status := some st }).2 ∧
    (∀ t db1,
      taskService.updateTask db i { title := none, description := none, status := some st }
          = (Except.ok t, db1) →
      handleStatusChange app db i st
        = ({ app with tasks := app.tasks.map (fun x => if x.id == i then t else x) },
           db1)) ∧
    (∀ u db1,
      taskService.updateTask db i { title := none, description := none, status := some st }
          = (Except.error u, db1) →
      handleStatusChange app db i st
        = ({ app with error := some "Failed to update task status" }, db1)) := by
  refine ⟨?_, ?_, ?_⟩
  · rw [handleStatusChange_snd app db i st, taskService_updateTask_snd]
  · intro t db1 heq
    unfold handleStatusChange
    rw [heq]
  · intro u db1 heq
    unfold handleStatusChange
    rw [heq]

/-- Witness for C8: changing the status of the sample task to
"completed" succeeds and splices the NULL-titled updated task back in
place. -/
theorem handleStatusChange_spec_witness :
    handleStatusChange appA dbA 1 "completed"
      = ({ appA with tasks := appA.tasks.map (fun x => if x.id == 1 then rowA1 else x) },
         dbA1) :=
  (handleStatusChange_spec appA dbA 1 "completed").2.1 rowA1 dbA1 (by rfl)

/-- C9: the delete handler never issues a delete without confirmation:
declining the blocking prompt returns the controller state and the
storage state both exactly unchanged; confirming with a successful
request removes exactly the tasks with the matching id from the list;
on failure only the error banner is set. -/
theorem handleDeleteTask_spec (app : AppState) (db : DB) (i : Nat) :
    handleDeleteTask app db i false = (app, db) ∧
    (∀ db1, taskService.deleteTask db i = (Except.ok (), db1) →
      handleDeleteTask app db i true
        = ({ app with tasks := app.tasks.filter (fun x => !(x.id == i)) }, db1)) ∧
    (∀ u db1, taskService.deleteTask db i = (Except.error u, db1) →
      handleDeleteTask app db i true
        = ({ app with error := some "Failed to delete task" }, db1)) := by
  refine ⟨rfl, ?_, ?_⟩
  · intro db1 heq
    unfold handleDeleteTask
    rw [heq]
    rfl
  · intro u db1 heq
    unfold handleDeleteTask
    rw [heq]
    rfl

/-- Witness for C9: declining leaves everything unchanged; confirming on
the sample database removes the task. -/
theorem handleDeleteTask_spec_witness :
    handleDeleteTask appA dbA 1 false = (appA, dbA) ∧
    handleDeleteTask appA dbA 1 true
      = ({ appA with tasks := appA.tasks.filter (fun x => !(x.id == 1)) },
         { rows := [], nextId := 2, clock := 1 }) :=
  ⟨(handleDeleteTask_spec appA dbA 1).1,
   (handleDeleteTask_spec appA dbA 1).2.1 { rows := [], nextId := 2, clock := 1 } (by rfl)⟩

/-- C10: submitting the edit form while no editing target is set is a
no-op: the handler returns at once, issuing no request and leaving the
controller state and the storage state both exactly unchanged. -/
theorem handleEditTask_no_target (app : AppState) (db : DB) (b : ReqBody)
    (h : app.editingTask = none) :
    handleEditTask app db b = (app, db) := by
  unfold handleEditTask
  rw [h]

/-- Witness for C10: the sample controller state has no editing target. -/
theorem handleEditTask_no_target_witness :
    handleEditTask appA dbA { title := some "X" } = (appA, dbA) :=
  handleEditTask_no_target appA dbA { title := some "X" } rfl
